import Mathlib

/-!
Shallow embedding of `convert.py` (code2pdf): a script that scans the current
directory, and for each regular file other than the script itself renders the
file's text to syntax-highlighted HTML with pygments and pipes that HTML
through `wkhtmltopdf` to produce a `<base>.pdf` next to the input.

External effects (file reads, pygments lexer lookup, the `wkhtmltopdf`
subprocess) are modelled as per-file oracles in `FileEnv`: each oracle field
holds the value the external call would return, or the Python exception it
would raise.  The script's own control flow (the try/except structure, the
skip/warn/error classification, the directory loop and its counter, the
startup availability check) is translated statement by statement.
-/

namespace Code2PDF

/-- Output stream a log line goes to (`print()` vs `print(..., file=sys.stderr)`). -/
inductive OutStream where
  | stdout
  | stderr
deriving DecidableEq, Repr

/-- The Python exception classes distinguished by the script's handlers.
`otherError` stands for any other exception class, carrying the class name
(`type(e).__name__`) and the message (`str(e)`). -/
inductive PyExc where
  | unicodeDecodeError
  | fileNotFoundError
  | calledProcessError (returncode : Int)
  | otherError (excType : String) (msg : String)
deriving DecidableEq, Repr

/-- ASCII whitespace stripped by Python's `str.strip()` (`\x20 \t \n \r \x0b \x0c`);
non-ASCII Unicode whitespace is not modelled. -/
def isPyWhitespace (c : Char) : Bool :=
  c == ' ' || c == '\t' || c == '\n' || c == '\r' || c == '\x0b' || c == '\x0c'

/-- Python `s.strip()` restricted to ASCII whitespace. -/
def pyStrip (s : String) : String :=
  ⟨((s.data.dropWhile isPyWhitespace).reverse.dropWhile isPyWhitespace).reverse⟩

/-- `os.path.basename` on POSIX: `p[p.rfind(sep)+1:]`, i.e. the maximal suffix
of `p` containing no `/`. -/
def basenameList (cs : List Char) : List Char :=
  (cs.reverse.takeWhile (fun c => c != '/')).reverse

/-- `os.path.basename` on POSIX paths. -/
def basename (p : String) : String :=
  ⟨basenameList p.data⟩

/-- `os.path.join(a, b)` on POSIX: if `b` starts with the separator the result
is `b`; otherwise `a ++ b` when `a` is empty or ends with the separator, and
`a ++ "/" ++ b` otherwise. -/
def joinPath (a b : String) : String :=
  if b.data.head? = some '/' then b
  else if a.data = [] ∨ a.data.getLast? = some '/' then a ++ b
  else a ++ "/" ++ b

/-- The basename-local part of `os.path.splitext` (`genericpath._splitext`
with the last `/` already stripped off): split `b` at its last `.`, except
that when every character before that dot is itself a dot (in particular for
leading-dot names like `.bashrc` or a bare `.pdf`) nothing is split off. -/
def splitextBase (b : List Char) : List Char × List Char :=
  let afterDot := (b.reverse.takeWhile (fun c => c != '.')).reverse
  if afterDot.length = b.length then (b, [])
  else
    let root := b.take (b.length - afterDot.length - 1)
    if root.all (fun c => c == '.') then (b, [])
    else (root, '.' :: afterDot)

/-- `os.path.splitext` on POSIX: the directory part (everything up to and
including the last `/`) is carried over unchanged and the basename is split
by `splitextBase`.  This matches `genericpath._splitext(p, '/', None, '.')`:
there the last dot only counts when it lies after the last `/`, and the
`while` loop rejects the split exactly when all basename characters before
the dot are dots. -/
def splitext (p : String) : String × String :=
  let cs := p.data
  let base := basenameList cs
  let head := cs.take (cs.length - base.length)
  let r := splitextBase base
  (⟨head ++ r.1⟩, ⟨r.2⟩)

/-- Lines 11-14: `base_filename = os.path.splitext(os.path.basename(path))[0]`,
`pdf_filename = f"{base_filename}.pdf"`,
`output_pdf_path = os.path.join(output_dir, pdf_filename)`. -/
def convertOutputPath (codeFilePath outputDir : String) : String :=
  let baseFilename := (splitext (basename codeFilePath)).1
  let pdfFilename := baseFilename ++ ".pdf"
  joinPath outputDir pdfFilename

/-- Lines 61-66: the argument vector passed to `subprocess.Popen`. -/
def wkCommand (outputPdfPath : String) : List String :=
  ["wkhtmltopdf", "--enable-local-file-access", "-", outputPdfPath]

/-- Observable result of a completed `wkhtmltopdf` run: `process.returncode`,
`os.path.exists(output_pdf_path)` and `os.path.getsize(output_pdf_path)`
as they stand after `communicate()` returns. -/
structure BackendRun where
  returncode : Int
  outputExists : Bool
  outputSize : Nat
deriving DecidableEq, Repr

/-- Per-file oracle environment: what each external call inside
`convert_code_to_pdf` would return for this file, or which exception it
would raise.  `lexerByFilename`/`lexerByContent` are `none` when pygments
raises `ClassNotFound`, and otherwise hold `lexer.name`.
`outputPreexisting` records whether a file already exists at the output
path before the run; the script never consults it. -/
structure FileEnv where
  readResult : Except PyExc String
  lexerByFilename : Option String
  lexerByContent : Option String
  highlightResult : Except PyExc String
  backendRun : Except PyExc BackendRun
  outputPreexisting : Bool
deriving Repr

/-- The per-file outcome, one constructor per terminal `print` branch of
`convert_code_to_pdf` (lines 26, 29, 33, 46, 91, 93, 95, 97, 100, 102). -/
inductive Outcome where
  | skippedNotText
  | skippedReadError (e : PyExc)
  | skippedEmpty
  | skippedNoLexer
  | success
  | warnEmptyPdf
  | warnMissingPdf
  | errorBackendFailed (returncode : Int)
  | errorFileNotFound
  | errorUnexpected (e : PyExc)
deriving DecidableEq, Repr

/-- What the log line(s) for an outcome contain: the target stream, and
whether the exception class name, the exception message, and a full
traceback are included. -/
structure LogRecord where
  stream : OutStream
  includesExcType : Bool
  includesExcMessage : Bool
  includesTraceback : Bool
deriving DecidableEq, Repr

/-- The log record of each outcome, read off the `print` statements:
skips go to stdout (no `file=sys.stderr`); warnings and errors go to stderr;
only the generic handler at lines 101-104 prints the exception type, its
message and `traceback.print_exc(file=sys.stderr)`.  The fixed text of
line 26 names `UnicodeDecodeError`, and line 29 interpolates `{e}`
(the message of the read exception). -/
def outcomeLog : Outcome → LogRecord
  | .skippedNotText => ⟨.stdout, true, false, false⟩
  | .skippedReadError _ => ⟨.stdout, false, true, false⟩
  | .skippedEmpty => ⟨.stdout, false, false, false⟩
  | .skippedNoLexer => ⟨.stdout, false, false, false⟩
  | .success => ⟨.stdout, false, false, false⟩
  | .warnEmptyPdf => ⟨.stderr, false, false, false⟩
  | .warnMissingPdf => ⟨.stderr, false, false, false⟩
  | .errorBackendFailed _ => ⟨.stderr, false, false, false⟩
  | .errorFileNotFound => ⟨.stderr, false, false, false⟩
  | .errorUnexpected _ => ⟨.stderr, true, true, true⟩

/-- Which stages of `convert_code_to_pdf` were reached for a file.
`backendInvoked` means control reached the `subprocess.Popen` call;
`backendCommand` is the argument vector built at lines 61-66 (empty while
not yet built); `outputDeleted` records whether the script removed the
output file (it never does: there is no `os.remove` in the script). -/
structure Trace where
  lexerFilenameQueried : Bool := false
  lexerContentQueried : Bool := false
  resolvedLexer : Option String := none
  htmlRendered : Bool := false
  backendInvoked : Bool := false
  backendCommand : List String := []
  outputDeleted : Bool := false
deriving DecidableEq, Repr

/-- Lines 89-97: classification of a completed backend run.  Note the
short-circuit `os.path.exists(..) and os.path.getsize(..) > 0`. -/
def classifyBackend (r : BackendRun) : Outcome :=
  if r.returncode = 0 then
    if r.outputExists = true ∧ 0 < r.outputSize then Outcome.success
    else if r.outputExists = true then Outcome.warnEmptyPdf
    else Outcome.warnMissingPdf
  else Outcome.errorBackendFailed r.returncode

/-- Lines 49-97, after a lexer has been resolved: render the HTML
(line 57, oracle `highlightResult`), build the `wkhtmltopdf` command,
run the subprocess (lines 69-75, oracle `backendRun`) and classify its
result.  An exception from either oracle propagates (as `.error`) to the
outer handlers of `convert_code_to_pdf`. -/
def continueWithLexer (env : FileEnv) (outputPath lexerName : String) (tr : Trace) :
    Except (PyExc × Trace) (Outcome × Trace) :=
  let _ := lexerName
  match env.highlightResult with
  | .error e => .error (e, tr)
  | .ok _highlightedHtml =>
    let tr2 : Trace :=
      { tr with htmlRendered := true, backendInvoked := true,
                backendCommand := wkCommand outputPath }
    match env.backendRun with
    | .error e => .error (e, tr2)
    | .ok r => .ok (classifyBackend r, tr2)

/-- Body of the outer `try` of `convert_code_to_pdf` (lines 19-97).
The inner `try` around `open`/`read` (lines 21-30) handles its own
exceptions: `except UnicodeDecodeError` first, then `except Exception`
which catches every remaining exception class (including
`FileNotFoundError`), both returning a skip.  Lines 32-34 skip
empty/whitespace-only content.  Lines 36-47 resolve the lexer: by filename
first, by content only on `ClassNotFound`, and skip when both fail.
Exceptions of later stages escape this body as `.error`. -/
def convertBody (env : FileEnv) (codeFilePath outputDir : String) :
    Except (PyExc × Trace) (Outcome × Trace) :=
  let outputPath := convertOutputPath codeFilePath outputDir
  match env.readResult with
  | .error PyExc.unicodeDecodeError => .ok (Outcome.skippedNotText, {})
  | .error e => .ok (Outcome.skippedReadError e, {})
  | .ok codeContent =>
    if codeContent.data.all isPyWhitespace then .ok (Outcome.skippedEmpty, {})
    else
      match env.lexerByFilename with
      | some lexerName =>
        continueWithLexer env outputPath lexerName
          { lexerFilenameQueried := true, resolvedLexer := some lexerName }
      | none =>
        match env.lexerByContent with
        | some lexerName =>
          continueWithLexer env outputPath lexerName
            { lexerFilenameQueried := true, lexerContentQueried := true,
              resolvedLexer := some lexerName }
        | none =>
          .ok (Outcome.skippedNoLexer,
               { lexerFilenameQueried := true, lexerContentQueried := true })

/-- The outer handlers at lines 99-104: `except FileNotFoundError` prints a
fixed message to stderr; `except Exception as e` prints the type, the
message and a traceback to stderr. -/
def catchFileBoundary : PyExc → Outcome
  | PyExc.fileNotFoundError => Outcome.errorFileNotFound
  | e => Outcome.errorUnexpected e

/-- `convert_code_to_pdf` (lines 11-104): the body with the outer
`try/except` wrapped around it.  Total: every exception of the body is
turned into an outcome. -/
def convert_code_to_pdf (env : FileEnv) (codeFilePath outputDir : String) :
    Outcome × Trace :=
  match convertBody env codeFilePath outputDir with
  | .ok r => r
  | .error et => (catchFileBoundary et.1, et.2)

/-- The exception escaping the body of `convert_code_to_pdf`, if any. -/
def raisedExc : Except (PyExc × Trace) (Outcome × Trace) → Option PyExc
  | .error et => some et.1
  | .ok _ => none

/-- A directory entry as `main` sees it: its name from `os.listdir`, the
`os.path.isfile(os.path.join(current_dir, name))` answer, and the per-file
oracle environment used if the entry is dispatched to conversion. -/
structure Entry where
  name : String
  isFile : Bool
  env : FileEnv
deriving Repr

/-- One log event of the scanning loop (lines 136-148). -/
inductive ScanEvent where
  | ignoredScript (name : String)
  | ignoredNonFile (name : String)
  | converted (name : String) (result : Outcome × Trace)
deriving Repr

/-- One iteration of the loop at lines 136-148: the script-name check comes
first, then the `os.path.isfile` check; only in the file branch is
`convert_code_to_pdf(file_path, output_dir)` called, with
`file_path = os.path.join(current_dir, filename)` and
`output_dir = current_dir`. -/
def scanStep (scriptName dir : String) (e : Entry) : ScanEvent :=
  if e.name = scriptName then ScanEvent.ignoredScript e.name
  else if e.isFile = true then
    ScanEvent.converted e.name (convert_code_to_pdf e.env (joinPath dir e.name) dir)
  else ScanEvent.ignoredNonFile e.name

/-- Whether a scan event is a dispatch to conversion. -/
def isConvertedEvent : ScanEvent → Bool
  | ScanEvent.converted _ _ => true
  | _ => false

/-- Loop body: append the event; `processed_files_count += 1` happens exactly
in the dispatch branch (line 145). -/
def mainStep (scriptName dir : String) (acc : List ScanEvent × Nat) (e : Entry) :
    List ScanEvent × Nat :=
  match scanStep scriptName dir e with
  | ScanEvent.converted n r => (acc.1 ++ [ScanEvent.converted n r], acc.2 + 1)
  | ev => (acc.1 ++ [ev], acc.2)

/-- The scanning loop of `main` (lines 136-148) over the `os.listdir`
result: the events in order, and the final `processed_files_count`. -/
def mainRun (scriptName dir : String) (entries : List Entry) :
    List ScanEvent × Nat :=
  entries.foldl (mainStep scriptName dir) ([], 0)

/-- Names of entries dispatched to conversion, in order. -/
def dispatchedNames (events : List ScanEvent) : List String :=
  events.filterMap fun ev =>
    match ev with
    | ScanEvent.converted n _ => some n
    | _ => none

/-- The final `RESULT:` line (lines 150-154). -/
inductive FinalReport where
  | noFiles
  | attempted (n : Nat)
deriving DecidableEq, Repr

/-- Lines 151-154: zero attempted files prints the "No other files" line,
otherwise the attempted count is printed; both via plain `print`. -/
def finalReport (n : Nat) : FinalReport :=
  if n = 0 then FinalReport.noFiles else FinalReport.attempted n

/-- Both `RESULT:` variants go to standard output. -/
def reportStream : FinalReport → OutStream := fun _ => OutStream.stdout

/-- Observable result of the whole script run (the `__main__` block,
lines 167-188). -/
structure StartupResult where
  exitCode : Nat
  versionPrinted : Option String
  fatalToStderr : Bool
  mainExecuted : Bool
  scan : Option (List ScanEvent × Nat)
deriving Repr

/-- The `__main__` block (lines 167-186): `subprocess.run(['wkhtmltopdf',
'--version'], check=True, ...)` is modelled by the `check` oracle.  On any
exception the handlers print diagnostics to stderr and call `sys.exit(1)`
without ever calling `main()`; on success the stripped stdout of the check
is printed and `main()` runs the directory scan, after which the process
ends normally (exit code 0). -/
def runScript (check : Except PyExc String) (scriptName dir : String)
    (entries : List Entry) : StartupResult :=
  match check with
  | .error _ =>
    { exitCode := 1, versionPrinted := none, fatalToStderr := true,
      mainExecuted := false, scan := none }
  | .ok versionOut =>
    { exitCode := 0, versionPrinted := some (pyStrip versionOut),
      fatalToStderr := false, mainExecuted := true,
      scan := some (mainRun scriptName dir entries) }

/-! ## Helper lemmas -/

/-- `takeWhile` passes over a prefix on which the predicate holds everywhere. -/
lemma takeWhile_app_of_all (p : Char → Bool) (xs ys : List Char)
    (h : ∀ a ∈ xs, p a = true) :
    (xs ++ ys).takeWhile p = xs ++ ys.takeWhile p := by
  induction xs with
  | nil => simp
  | cons x xs ih =>
    have hx : p x = true := h x (List.mem_cons_self x xs)
    simp only [List.cons_append, List.takeWhile_cons_of_pos hx]
    rw [ih (fun a ha => h a (List.mem_cons_of_mem _ ha))]

/-- `takeWhile` is the identity when the predicate holds everywhere. -/
lemma takeWhile_eq_self_of_all (p : Char → Bool) (xs : List Char)
    (h : ∀ a ∈ xs, p a = true) : xs.takeWhile p = xs := by
  have h2 := takeWhile_app_of_all p xs [] h
  simpa using h2

/-- A slash-free string is its own basename. -/
lemma basenameList_no_slash (m : List Char) (h : ∀ c ∈ m, c ≠ '/') :
    basenameList m = m := by
  unfold basenameList
  rw [takeWhile_eq_self_of_all, List.reverse_reverse]
  intro a ha
  simp [h a (List.mem_reverse.mp ha)]

/-- The basename of a path whose last slash is followed by `m` is `m`. -/
lemma basenameList_append_slash (l m : List Char) (h : ∀ c ∈ m, c ≠ '/') :
    basenameList (l ++ '/' :: m) = m := by
  unfold basenameList
  rw [List.reverse_append, List.reverse_cons, List.append_assoc,
      takeWhile_app_of_all _ _ _
        (fun a ha => by simp [h a (List.mem_reverse.mp ha)])]
  simp [List.takeWhile_cons]

/-- `os.path.basename (os.path.join a b) = b` when `b` is a nonempty
slash-free component (as every `os.listdir` entry is). -/
lemma basename_joinPath (a b : String) (hb : b.data ≠ [])
    (h : ∀ c ∈ b.data, c ≠ '/') : basename (joinPath a b) = b := by
  unfold joinPath
  have h1 : ¬ b.data.head? = some '/' := by
    cases hd : b.data with
    | nil => exact absurd hd hb
    | cons c cs =>
      simp only [List.head?_cons, Option.some.injEq]
      intro hc
      exact h c (by rw [hd]; exact List.mem_cons_self _ _) hc
  rw [if_neg h1]
  by_cases h2 : a.data = [] ∨ a.data.getLast? = some '/'
  · rw [if_pos h2]
    show (⟨basenameList ((a ++ b).data)⟩ : String) = b
    rw [String.data_append]
    rcases h2 with ha | hl
    · rw [ha, List.nil_append, basenameList_no_slash b.data h]
    · have hne : a.data ≠ [] := by
        intro hn; rw [hn] at hl; simp at hl
      have h4 : a.data.getLast hne = '/' := by
        have h5 := List.getLast?_eq_getLast a.data hne
        rw [h5] at hl
        exact Option.some.inj hl
      have h3 : a.data.dropLast ++ ['/'] = a.data := by
        have h6 := List.dropLast_append_getLast hne
        rw [h4] at h6
        exact h6
      rw [← h3, List.append_assoc, List.singleton_append,
          basenameList_append_slash _ _ h]
  · rw [if_neg h2]
    show (⟨basenameList ((a ++ "/" ++ b).data)⟩ : String) = b
    rw [String.data_append, String.data_append]
    have : ("/" : String).data = ['/'] := rfl
    rw [this, List.append_assoc, List.singleton_append,
        basenameList_append_slash _ _ h]

/-- `takeWhile (· != '.')` on the reversal of a name ending in `.pdf`. -/
lemma takeWhile_ne_dot_pdf_rev (sr : List Char) :
    ('f' :: 'd' :: 'p' :: '.' :: sr).takeWhile (fun c => c != '.') =
      ['f', 'd', 'p'] := by
  rw [List.takeWhile_cons_of_pos (by decide), List.takeWhile_cons_of_pos (by decide),
      List.takeWhile_cons_of_pos (by decide), List.takeWhile_cons_of_neg (by decide)]

/-- `os.path.splitext` on a name `stem ++ ".pdf"` splits off exactly `.pdf`
as soon as the stem contains a non-dot character and no slash. -/
lemma splitext_append_pdf (stem : String)
    (hslash : ∀ c ∈ stem.data, c ≠ '/')
    (hdot : ∃ c ∈ stem.data, c ≠ '.') :
    splitext (stem ++ ".pdf") = (stem, ".pdf") := by
  have hd : (stem ++ ".pdf").data = stem.data ++ ['.', 'p', 'd', 'f'] := by
    rw [String.data_append]
  have hbase : basenameList (stem.data ++ ['.', 'p', 'd', 'f']) =
      stem.data ++ ['.', 'p', 'd', 'f'] := by
    apply basenameList_no_slash
    intro c hc
    rcases List.mem_append.mp hc with h | h
    · exact hslash c h
    · fin_cases h <;> decide
  have hrev : (stem.data ++ ['.', 'p', 'd', 'f']).reverse =
      'f' :: 'd' :: 'p' :: '.' :: stem.data.reverse := by
    rw [List.reverse_append]; rfl
  have hlen : (stem.data ++ ['.', 'p', 'd', 'f']).length =
      stem.data.length + 4 := by simp
  have hafter :
      ((stem.data ++ ['.', 'p', 'd', 'f']).reverse.takeWhile
        (fun c => c != '.')).reverse = ['p', 'd', 'f'] := by
    rw [hrev, takeWhile_ne_dot_pdf_rev]
    decide
  have hsb : splitextBase (stem.data ++ ['.', 'p', 'd', 'f']) =
      (stem.data, '.' :: ['p', 'd', 'f']) := by
    unfold splitextBase
    simp only [hafter, hlen]
    rw [if_neg (by simp only [List.length_cons, List.length_nil]; omega)]
    have harith : stem.data.length + 4 - 3 - 1 = stem.data.length := by omega
    have htake : (stem.data ++ ['.', 'p', 'd', 'f']).take
        (stem.data.length + 4 - List.length ['p', 'd', 'f'] - 1) = stem.data := by
      have : List.length (['p', 'd', 'f'] : List Char) = 3 := rfl
      rw [this, harith, List.take_left]
    rw [htake]
    rw [if_neg ?_]
    obtain ⟨c, hc, hcne⟩ := hdot
    intro hall
    rw [List.all_eq_true] at hall
    exact hcne (by simpa using hall c hc)
  unfold splitext
  simp only [hd, hbase, hsb]
  rw [Prod.mk.injEq]
  refine ⟨?_, rfl⟩
  rw [Nat.sub_self, List.take_zero, List.nil_append]

/-- The output path computed for an input named `stem ++ ".pdf"` (with a
non-dot character in the stem) is that input path itself. -/
lemma convertOutputPath_pdf_fixpoint (dir stem : String)
    (hslash : ∀ c ∈ stem.data, c ≠ '/')
    (hdot : ∃ c ∈ stem.data, c ≠ '.') :
    convertOutputPath (joinPath dir (stem ++ ".pdf")) dir =
      joinPath dir (stem ++ ".pdf") := by
  have hdata : (stem ++ ".pdf").data = stem.data ++ ['.', 'p', 'd', 'f'] := by
    rw [String.data_append]
  have hnonempty : (stem ++ ".pdf").data ≠ [] := by
    rw [hdata]; simp
  have hnoslash : ∀ c ∈ (stem ++ ".pdf").data, c ≠ '/' := by
    intro c hc
    rw [hdata] at hc
    rcases List.mem_append.mp hc with h | h
    · exact hslash c h
    · fin_cases h <;> decide
  unfold convertOutputPath
  rw [basename_joinPath dir (stem ++ ".pdf") hnonempty hnoslash,
      splitext_append_pdf stem hslash hdot]

/-- Loop-body normal form: the event is `scanStep` and the counter steps by
one exactly on a dispatch. -/
lemma mainStep_eq (s d : String) (acc : List ScanEvent × Nat) (e : Entry) :
    mainStep s d acc e =
      (acc.1 ++ [scanStep s d e],
       acc.2 + if isConvertedEvent (scanStep s d e) = true then 1 else 0) := by
  unfold mainStep
  cases h : scanStep s d e <;> simp [isConvertedEvent]

/-- The scanning loop in closed form: events are the per-entry `scanStep`s
and the counter counts the dispatching entries. -/
lemma mainRun_eq (scriptName dir : String) (entries : List Entry) :
    mainRun scriptName dir entries =
      (entries.map (scanStep scriptName dir),
       entries.countP (fun e => isConvertedEvent (scanStep scriptName dir e))) := by
  suffices h : ∀ acc : List ScanEvent × Nat,
      entries.foldl (mainStep scriptName dir) acc =
        (acc.1 ++ entries.map (scanStep scriptName dir),
         acc.2 + entries.countP
           (fun e => isConvertedEvent (scanStep scriptName dir e))) by
    simpa [mainRun] using h ([], 0)
  induction entries with
  | nil => intro acc; simp
  | cons e es ih =>
    intro acc
    rw [List.foldl_cons, mainStep_eq, ih]
    simp [List.countP_cons]
    omega

/-- An entry dispatches iff it is a regular file not named like the script. -/
lemma isConvertedEvent_scanStep (s d : String) (e : Entry) :
    isConvertedEvent (scanStep s d e) = (decide (e.name ≠ s) && e.isFile) := by
  unfold scanStep
  by_cases h : e.name = s
  · simp [h, isConvertedEvent]
  · by_cases hf : e.isFile = true
    · simp [h, hf, isConvertedEvent]
    · simp only [Bool.not_eq_true] at hf
      simp [h, hf, isConvertedEvent]

/-- The dispatched names are the names of the eligible entries, in order. -/
lemma dispatchedNames_map (s d : String) (entries : List Entry) :
    dispatchedNames (entries.map (scanStep s d)) =
      (entries.filter fun e => decide (e.name ≠ s) && e.isFile).map Entry.name := by
  induction entries with
  | nil => rfl
  | cons e es ih =>
    rw [List.map_cons]
    unfold dispatchedNames at ih ⊢
    rw [List.filterMap_cons]
    by_cases h : e.name = s
    · have hstep : scanStep s d e = ScanEvent.ignoredScript e.name := by
        unfold scanStep; rw [if_pos h]
      rw [hstep]
      simp only []
      rw [List.filter_cons_of_neg (by simp [h]), ih]
    · by_cases hf : e.isFile = true
      · have hstep : scanStep s d e =
            ScanEvent.converted e.name
              (convert_code_to_pdf e.env (joinPath d e.name) d) := by
          unfold scanStep; rw [if_neg h, if_pos hf]
        rw [hstep]
        simp only []
        rw [List.filter_cons_of_pos (by simp [h, hf]), List.map_cons, ih]
      · simp only [Bool.not_eq_true] at hf
        have hstep : scanStep s d e = ScanEvent.ignoredNonFile e.name := by
          unfold scanStep; rw [if_neg h, hf]; simp
        rw [hstep]
        simp only []
        rw [List.filter_cons_of_neg (by simp [hf]), ih]

/-- When read, lexer lookup and HTML rendering all succeed, the trace of the
conversion records the backend invocation with the computed command,
whatever the backend run itself does. -/
lemma convert_trace_of_resolved (env : FileEnv)
    (p d content lexerName html : String)
    (hread : env.readResult = .ok content)
    (hne : content.data.all isPyWhitespace = false)
    (hlex : env.lexerByFilename = some lexerName)
    (hhtml : env.highlightResult = .ok html) :
    (convert_code_to_pdf env p d).2 =
      { lexerFilenameQueried := true, resolvedLexer := some lexerName,
        htmlRendered := true, backendInvoked := true,
        backendCommand := wkCommand (convertOutputPath p d) } := by
  unfold convert_code_to_pdf convertBody continueWithLexer
  rw [hread]
  simp only [hne, Bool.false_eq_true, if_false, hlex, hhtml]
  cases hb : env.backendRun <;> simp

/-- When the backend run also completes, the body returns normally with the
classified outcome. -/
lemma convertBody_of_backend_ok (env : FileEnv)
    (p d content lexerName html : String) (r : BackendRun)
    (hread : env.readResult = .ok content)
    (hne : content.data.all isPyWhitespace = false)
    (hlex : env.lexerByFilename = some lexerName)
    (hhtml : env.highlightResult = .ok html)
    (hrun : env.backendRun = .ok r) :
    convertBody env p d = .ok (classifyBackend r,
      { lexerFilenameQueried := true, resolvedLexer := some lexerName,
        htmlRendered := true, backendInvoked := true,
        backendCommand := wkCommand (convertOutputPath p d) }) := by
  unfold convertBody continueWithLexer
  rw [hread]
  simp only [hne, Bool.false_eq_true, if_false, hlex, hhtml, hrun]

/-! ## Sample environments (concrete inputs for witnesses and counterexamples) -/

/-- A file that reads fine, resolves a lexer by filename and renders, but
whose `subprocess.Popen` raises `FileNotFoundError` (backend binary gone). -/
def envBackendGone : FileEnv :=
  { readResult := .ok "print(1)\n", lexerByFilename := some "Python",
    lexerByContent := none, highlightResult := .ok "<html></html>",
    backendRun := .error PyExc.fileNotFoundError, outputPreexisting := false }

/-- A listed file deleted before `open()`: the read raises
`FileNotFoundError`. -/
def envSourceVanished : FileEnv :=
  { readResult := .error PyExc.fileNotFoundError, lexerByFilename := none,
    lexerByContent := none, highlightResult := .ok "",
    backendRun := .ok ⟨0, true, 1⟩, outputPreexisting := false }

/-- A binary file: the read raises `UnicodeDecodeError`. -/
def envBinary : FileEnv :=
  { readResult := .error PyExc.unicodeDecodeError,
    lexerByFilename := some "Python", lexerByContent := some "Python",
    highlightResult := .ok "<html></html>", backendRun := .ok ⟨0, true, 1⟩,
    outputPreexisting := false }

/-- A whitespace-only file. -/
def envBlank : FileEnv :=
  { readResult := .ok "  \n\t", lexerByFilename := some "Python",
    lexerByContent := some "Python", highlightResult := .ok "<html></html>",
    backendRun := .ok ⟨0, true, 1⟩, outputPreexisting := false }

/-- A file for which neither resolution stage finds a lexer. -/
def envNoLexer : FileEnv :=
  { readResult := .ok "garbage", lexerByFilename := none,
    lexerByContent := none, highlightResult := .ok "<html></html>",
    backendRun := .ok ⟨0, true, 1⟩, outputPreexisting := false }

/-- A fully successful conversion: backend exits 0 with a 5-byte output. -/
def envAllOk : FileEnv :=
  { readResult := .ok "print(1)\n", lexerByFilename := some "Python",
    lexerByContent := none, highlightResult := .ok "<html></html>",
    backendRun := .ok ⟨0, true, 5⟩, outputPreexisting := false }

/-! ## Claims -/

/-- Claim C1: if the startup `wkhtmltopdf --version` check fails (binary
missing → `FileNotFoundError`, non-zero exit → `CalledProcessError` from
`check=True`), the script prints a fatal diagnostic to stderr and terminates
with exit code 1, `main()` never runs, no scan record exists, and the result
does not depend on the directory contents (no entry is read, no file
processed); if the check succeeds, the stripped reported version is printed
and the directory scan proceeds, with exit code 0. -/
theorem startup_check_gates_processing (scriptName dir : String)
    (entries : List Entry) (e : PyExc)
    (_hfail : e = PyExc.fileNotFoundError ∨
      ∃ rc, e = PyExc.calledProcessError rc) :
    (runScript (.error e) scriptName dir entries).exitCode = 1 ∧
    (runScript (.error e) scriptName dir entries).fatalToStderr = true ∧
    (runScript (.error e) scriptName dir entries).mainExecuted = false ∧
    (runScript (.error e) scriptName dir entries).scan = none ∧
    (∀ entries' : List Entry,
      runScript (.error e) scriptName dir entries =
        runScript (.error e) scriptName dir entries') ∧
    (∀ version : String,
      (runScript (.ok version) scriptName dir entries).exitCode = 0 ∧
      (runScript (.ok version) scriptName dir entries).versionPrinted =
        some (pyStrip version) ∧
      (runScript (.ok version) scriptName dir entries).mainExecuted = true ∧
      (runScript (.ok version) scriptName dir entries).scan =
        some (mainRun scriptName dir entries)) := by
  exact ⟨rfl, rfl, rfl, rfl, fun _ => rfl, fun _ => ⟨rfl, rfl, rfl, rfl⟩⟩

/-- Witness for C1 at a concrete failing check and a concrete directory. -/
theorem startup_check_gates_processing_witness :
    (runScript (.error PyExc.fileNotFoundError) "convert.py" "/work"
      [⟨"a.py", true, envAllOk⟩]).exitCode = 1 ∧
    (runScript (.error PyExc.fileNotFoundError) "convert.py" "/work"
      [⟨"a.py", true, envAllOk⟩]).scan = none ∧
    (runScript (.ok " wkhtmltopdf 0.12.6 \n") "convert.py" "/work"
      [⟨"a.py", true, envAllOk⟩]).versionPrinted = some "wkhtmltopdf 0.12.6" := by
  have h := startup_check_gates_processing "convert.py" "/work"
    [⟨"a.py", true, envAllOk⟩] PyExc.fileNotFoundError (Or.inl rfl)
  exact ⟨h.1, h.2.2.2.1, ((h.2.2.2.2.2 " wkhtmltopdf 0.12.6 \n").2.1).trans (by rfl)⟩

/-- Claim C2, counterexample: a `FileNotFoundError` raised at the backend
stage (e.g. `subprocess.Popen` when the `wkhtmltopdf` binary has vanished
mid-run) escapes the body to the per-file boundary and is caught there, but
the handler at line 100 logs a fixed message carrying neither the exception
type nor its message nor any stack trace — refuting the claim that any
exception caught at the boundary is "logged with its type, message, and a
full stack trace". -/
theorem boundary_fnf_logged_without_traceback :
    raisedExc (convertBody envBackendGone "/work/a.py" "/work") =
      some PyExc.fileNotFoundError ∧
    (convert_code_to_pdf envBackendGone "/work/a.py" "/work").1 =
      Outcome.errorFileNotFound ∧
    outcomeLog (convert_code_to_pdf envBackendGone "/work/a.py" "/work").1 =
      { stream := OutStream.stderr, includesExcType := false,
        includesExcMessage := false, includesTraceback := false } := by
  exact ⟨rfl, rfl, rfl⟩

/-- Claim C2 (amended): every exception escaping the body of
`convert_code_to_pdf` is caught at the per-file boundary and becomes a
stderr-logged outcome — it never propagates, and the scanning loop yields
one event for every directory entry regardless of outcomes — but only
exceptions other than `FileNotFoundError` are logged with their type,
message and a full stack trace; `FileNotFoundError` gets a fixed stderr
message without a traceback. -/
theorem file_boundary_catch_isolation (env : FileEnv) (p d : String)
    (e : PyExc) (tr : Trace)
    (h : convertBody env p d = .error (e, tr)) :
    convert_code_to_pdf env p d = (catchFileBoundary e, tr) ∧
    (outcomeLog (catchFileBoundary e)).stream = OutStream.stderr ∧
    (e ≠ PyExc.fileNotFoundError →
      outcomeLog (catchFileBoundary e) =
        { stream := OutStream.stderr, includesExcType := true,
          includesExcMessage := true, includesTraceback := true }) ∧
    (e = PyExc.fileNotFoundError →
      outcomeLog (catchFileBoundary e) =
        { stream := OutStream.stderr, includesExcType := false,
          includesExcMessage := false, includesTraceback := false }) ∧
    (∀ (scriptName dir : String) (entries : List Entry),
      ((mainRun scriptName dir entries).1).length = entries.length) := by
  refine ⟨?_, ?_, ?_, ?_, ?_⟩
  · unfold convert_code_to_pdf
    rw [h]
  · cases e <;> simp [catchFileBoundary, outcomeLog]
  · intro hne
    cases e <;> simp_all [catchFileBoundary, outcomeLog]
  · intro heq
    subst heq
    rfl
  · intro scriptName dir entries
    rw [mainRun_eq]
    simp

/-- Witness for C2 (amended) at `envBackendGone`. -/
theorem file_boundary_catch_isolation_witness :
    convert_code_to_pdf envBackendGone "/work/a.py" "/work" =
      (Outcome.errorFileNotFound,
       { lexerFilenameQueried := true, resolvedLexer := some "Python",
         htmlRendered := true, backendInvoked := true,
         backendCommand := ["wkhtmltopdf", "--enable-local-file-access", "-",
                            "/work/a.pdf"] }) ∧
    (outcomeLog Outcome.errorFileNotFound).stream = OutStream.stderr := by
  have h := file_boundary_catch_isolation envBackendGone "/work/a.py" "/work"
    PyExc.fileNotFoundError
    { lexerFilenameQueried := true, resolvedLexer := some "Python",
      htmlRendered := true, backendInvoked := true,
      backendCommand := ["wkhtmltopdf", "--enable-local-file-access", "-",
                         "/work/a.pdf"] }
    (by rfl)
  exact ⟨h.1, h.2.1⟩

/-- Claim C8 (code bug): when `open()` raises `FileNotFoundError` for a
listed file, the inner `except Exception` at line 28 intercepts it before
the boundary handler at line 99 can, so the file is logged as a stdout
"Skipping ...: Error reading file" — the skip category — and not as the
stderr per-file error whose own message at line 100
("Could not find file ... This shouldn't happen if listed by os.listdir")
documents that this situation was meant to land there.  No exception
reaches the boundary. -/
theorem missing_source_at_open_logged_as_skip :
    convert_code_to_pdf envSourceVanished "/work/gone.py" "/work" =
      (Outcome.skippedReadError PyExc.fileNotFoundError, {}) ∧
    (outcomeLog (Outcome.skippedReadError PyExc.fileNotFoundError)).stream =
      OutStream.stdout ∧
    raisedExc (convertBody envSourceVanished "/work/gone.py" "/work") = none := by
  exact ⟨rfl, rfl, rfl⟩

/-- Claim C3: after a successful non-blank read, the filename-based lexer
lookup always happens first; the content-based guess is consulted only when
the filename lookup raises `ClassNotFound` (modelled as `none`); and when
both stages fail the function returns the stdout-logged skip
`skippedNoLexer` with a trace showing no HTML rendered and no backend
process spawned — so no PDF is produced. -/
theorem lexer_resolution_fallback_order (env : FileEnv) (p d content : String)
    (hread : env.readResult = .ok content)
    (hne : content.data.all isPyWhitespace = false) :
    (convert_code_to_pdf env p d).2.lexerFilenameQueried = true ∧
    (∀ lexerName, env.lexerByFilename = some lexerName →
      (convert_code_to_pdf env p d).2.resolvedLexer = some lexerName ∧
      (convert_code_to_pdf env p d).2.lexerContentQueried = false) ∧
    (env.lexerByFilename = none →
      (convert_code_to_pdf env p d).2.lexerContentQueried = true ∧
      (∀ lexerName, env.lexerByContent = some lexerName →
        (convert_code_to_pdf env p d).2.resolvedLexer = some lexerName)) ∧
    (env.lexerByFilename = none → env.lexerByContent = none →
      convert_code_to_pdf env p d =
        (Outcome.skippedNoLexer,
         { lexerFilenameQueried := true, lexerContentQueried := true }) ∧
      (outcomeLog Outcome.skippedNoLexer).stream = OutStream.stdout) := by
  unfold convert_code_to_pdf convertBody continueWithLexer
  rw [hread]
  simp only [hne, Bool.false_eq_true, if_false]
  cases hlf : env.lexerByFilename with
  | some lexerName =>
    cases hh : env.highlightResult with
    | error e => simp [outcomeLog]
    | ok html => cases hb : env.backendRun <;> simp [outcomeLog]
  | none =>
    cases hlc : env.lexerByContent with
    | some lexerName =>
      cases hh : env.highlightResult with
      | error e => simp [outcomeLog]
      | ok html => cases hb : env.backendRun <;> simp [outcomeLog]
    | none => simp [outcomeLog]

/-- Witness for C3: with no lexer found by either stage, the file is
skipped with nothing rendered and no backend spawned. -/
theorem lexer_resolution_fallback_order_witness :
    convert_code_to_pdf envNoLexer "/work/x.zzz" "/work" =
      (Outcome.skippedNoLexer,
       { lexerFilenameQueried := true, lexerContentQueried := true }) ∧
    (convert_code_to_pdf envAllOk "/work/a.py" "/work").2.lexerContentQueried =
      false := by
  have h1 := lexer_resolution_fallback_order envNoLexer "/work/x.zzz" "/work"
    "garbage" rfl (by decide)
  have h2 := lexer_resolution_fallback_order envAllOk "/work/a.py" "/work"
    "print(1)\n" rfl (by decide)
  exact ⟨(h1.2.2.2 rfl rfl).1, (h2.2.1 "Python" rfl).2⟩

/-- Claim C4: a file whose read raises `UnicodeDecodeError` (undecodable
bytes), or whose decoded content is empty or whitespace-only, is skipped at
once with the initial trace — no lexer lookup, no HTML, no backend — and
the outcome is logged to stdout.  The right-hand sides do not mention the
file path, so the result is the same for every path and extension. -/
theorem undecodable_or_blank_skipped_early (env : FileEnv) (p d : String) :
    (env.readResult = .error PyExc.unicodeDecodeError →
      convert_code_to_pdf env p d = (Outcome.skippedNotText, {}) ∧
      (outcomeLog Outcome.skippedNotText).stream = OutStream.stdout) ∧
    (∀ content : String, env.readResult = .ok content →
      content.data.all isPyWhitespace = true →
      convert_code_to_pdf env p d = (Outcome.skippedEmpty, {}) ∧
      (outcomeLog Outcome.skippedEmpty).stream = OutStream.stdout) := by
  constructor
  · intro h
    refine ⟨?_, rfl⟩
    unfold convert_code_to_pdf convertBody
    rw [h]
  · intro content h hall
    refine ⟨?_, rfl⟩
    unfold convert_code_to_pdf convertBody
    rw [h]
    simp [hall]

/-- Witness for C4: a binary file and a whitespace-only file are both
skipped with the empty trace. -/
theorem undecodable_or_blank_skipped_early_witness :
    convert_code_to_pdf envBinary "/work/a.bin" "/work" =
      (Outcome.skippedNotText, {}) ∧
    convert_code_to_pdf envBlank "/work/b.py" "/work" =
      (Outcome.skippedEmpty, {}) := by
  exact ⟨((undecodable_or_blank_skipped_early envBinary "/work/a.bin" "/work").1
            rfl).1,
         ((undecodable_or_blank_skipped_early envBlank "/work/b.py" "/work").2
            "  \n\t" rfl (by decide)).1⟩

/-- Claim C5: when the read, the filename lexer lookup, the HTML rendering
and the backend subprocess all complete, the body returns normally — no
exception — with outcome `classifyBackend r`, and the classification is
exactly the four-way split of lines 89-97: exit 0 with an existing
non-empty output → success on stdout; exit 0 with an existing empty output
→ warning on stderr (nothing deleted); exit 0 with the output missing →
warning on stderr; non-zero exit → error on stderr. -/
theorem backend_result_classification (env : FileEnv)
    (p d content lexerName html : String) (r : BackendRun)
    (hread : env.readResult = .ok content)
    (hne : content.data.all isPyWhitespace = false)
    (hlex : env.lexerByFilename = some lexerName)
    (hhtml : env.highlightResult = .ok html)
    (hrun : env.backendRun = .ok r) :
    convertBody env p d = .ok (classifyBackend r,
      { lexerFilenameQueried := true, resolvedLexer := some lexerName,
        htmlRendered := true, backendInvoked := true,
        backendCommand := wkCommand (convertOutputPath p d) }) ∧
    (convert_code_to_pdf env p d).2.outputDeleted = false ∧
    (r.returncode = 0 → r.outputExists = true → 0 < r.outputSize →
      classifyBackend r = Outcome.success ∧
      (outcomeLog Outcome.success).stream = OutStream.stdout) ∧
    (r.returncode = 0 → r.outputExists = true → r.outputSize = 0 →
      classifyBackend r = Outcome.warnEmptyPdf ∧
      (outcomeLog Outcome.warnEmptyPdf).stream = OutStream.stderr) ∧
    (r.returncode = 0 → r.outputExists = false →
      classifyBackend r = Outcome.warnMissingPdf ∧
      (outcomeLog Outcome.warnMissingPdf).stream = OutStream.stderr) ∧
    (r.returncode ≠ 0 →
      classifyBackend r = Outcome.errorBackendFailed r.returncode ∧
      (outcomeLog (Outcome.errorBackendFailed r.returncode)).stream =
        OutStream.stderr) := by
  refine ⟨convertBody_of_backend_ok env p d content lexerName html r
    hread hne hlex hhtml hrun, ?_, ?_, ?_, ?_, ?_⟩
  · rw [convert_trace_of_resolved env p d content lexerName html
      hread hne hlex hhtml]
  · intro h1 h2 h3
    unfold classifyBackend
    rw [if_pos h1, if_pos ⟨h2, h3⟩]
    exact ⟨rfl, rfl⟩
  · intro h1 h2 h3
    unfold classifyBackend
    rw [if_pos h1, if_neg (by simp [h3]), if_pos h2]
    exact ⟨rfl, rfl⟩
  · intro h1 h2
    unfold classifyBackend
    rw [if_pos h1, if_neg (by simp [h2]), if_neg (by simp [h2])]
    exact ⟨rfl, rfl⟩
  · intro h1
    unfold classifyBackend
    rw [if_neg h1]
    exact ⟨rfl, rfl⟩

/-- Witness for C5: a backend run exiting 0 with a 5-byte output is a
success, and the body returns normally with the full trace. -/
theorem backend_result_classification_witness :
    convertBody envAllOk "/work/a.py" "/work" =
      .ok (Outcome.success,
       { lexerFilenameQueried := true, resolvedLexer := some "Python",
         htmlRendered := true, backendInvoked := true,
         backendCommand := ["wkhtmltopdf", "--enable-local-file-access", "-",
                            "/work/a.pdf"] }) ∧
    classifyBackend ⟨0, true, 5⟩ = Outcome.success := by
  have h := backend_result_classification envAllOk "/work/a.py" "/work"
    "print(1)\n" "Python" "<html></html>" ⟨0, true, 5⟩
    rfl (by decide) rfl rfl rfl
  refine ⟨h.1.trans (by rfl), (h.2.2.1 rfl rfl (by decide)).1⟩

/-- Claim C6: in the scan, an entry named like the script is skipped and
logged as ignored; an entry that is not a regular file is skipped and logged
as ignored; every remaining entry — a regular file other than the script —
is dispatched to per-file conversion; and the dispatched entries are exactly
those, in listing order. -/
theorem scan_dispatch_policy (scriptName dir : String) (entries : List Entry) :
    (∀ e : Entry,
      (e.name = scriptName →
        scanStep scriptName dir e = ScanEvent.ignoredScript e.name) ∧
      (e.name ≠ scriptName → e.isFile = false →
        scanStep scriptName dir e = ScanEvent.ignoredNonFile e.name) ∧
      (e.name ≠ scriptName → e.isFile = true →
        scanStep scriptName dir e =
          ScanEvent.converted e.name
            (convert_code_to_pdf e.env (joinPath dir e.name) dir))) ∧
    (mainRun scriptName dir entries).1 = entries.map (scanStep scriptName dir) ∧
    dispatchedNames (mainRun scriptName dir entries).1 =
      (entries.filter fun e => decide (e.name ≠ scriptName) && e.isFile).map
        Entry.name := by
  refine ⟨?_, ?_, ?_⟩
  · intro e
    refine ⟨?_, ?_, ?_⟩
    · intro h
      unfold scanStep
      rw [if_pos h]
    · intro h hf
      unfold scanStep
      rw [if_neg h, hf]
      simp
    · intro h hf
      unfold scanStep
      rw [if_neg h, if_pos hf]
  · rw [mainRun_eq]
  · rw [mainRun_eq]
    exact dispatchedNames_map scriptName dir entries

/-- Witness for C6 on a concrete four-entry directory: the script itself and
a subdirectory are ignored, the two regular files are dispatched. -/
theorem scan_dispatch_policy_witness :
    scanStep "convert.py" "/work" ⟨"convert.py", true, envAllOk⟩ =
      ScanEvent.ignoredScript "convert.py" ∧
    scanStep "convert.py" "/work" ⟨"sub", false, envAllOk⟩ =
      ScanEvent.ignoredNonFile "sub" ∧
    dispatchedNames
      (mainRun "convert.py" "/work"
        [⟨"convert.py", true, envAllOk⟩, ⟨"a.py", true, envAllOk⟩,
         ⟨"sub", false, envAllOk⟩, ⟨"b.txt", true, envNoLexer⟩]).1 =
      ["a.py", "b.txt"] := by
  have h := scan_dispatch_policy "convert.py" "/work"
    [⟨"convert.py", true, envAllOk⟩, ⟨"a.py", true, envAllOk⟩,
     ⟨"sub", false, envAllOk⟩, ⟨"b.txt", true, envNoLexer⟩]
  refine ⟨(h.1 ⟨"convert.py", true, envAllOk⟩).1 rfl,
          (h.1 ⟨"sub", false, envAllOk⟩).2.1 (by decide) rfl,
          h.2.2.trans (by rfl)⟩

/-- Claim C7: the final count equals the number of entries that are regular
files not named like the script; it depends only on the entries' names and
is-file flags — not on any conversion outcome — and a count of zero is
reported as the normal stdout "no files" line, a positive count as the
stdout "attempted n" line. -/
theorem attempted_count_invariant (scriptName dir : String)
    (entries : List Entry) :
    (mainRun scriptName dir entries).2 =
      (entries.filter fun e => decide (e.name ≠ scriptName) && e.isFile).length ∧
    (∀ entries' : List Entry,
      entries.map (fun e => (e.name, e.isFile)) =
        entries'.map (fun e => (e.name, e.isFile)) →
      (mainRun scriptName dir entries).2 =
        (mainRun scriptName dir entries').2) ∧
    finalReport 0 = FinalReport.noFiles ∧
    reportStream (finalReport 0) = OutStream.stdout ∧
    (∀ n : Nat, n ≠ 0 → finalReport n = FinalReport.attempted n ∧
      reportStream (finalReport n) = OutStream.stdout) := by
  have hcount : ∀ es : List Entry,
      (mainRun scriptName dir es).2 =
        es.countP fun e => decide (e.name ≠ scriptName) && e.isFile := by
    intro es
    rw [mainRun_eq]
    simp only []
    congr 1
    funext e
    exact isConvertedEvent_scanStep scriptName dir e
  refine ⟨?_, ?_, rfl, rfl, ?_⟩
  · rw [hcount, List.countP_eq_length_filter]
  · intro entries' hmap
    rw [hcount, hcount]
    have hm : ∀ es : List Entry,
        es.countP (fun e => decide (e.name ≠ scriptName) && e.isFile) =
          (es.map fun e => (e.name, e.isFile)).countP
            (fun pr => decide (pr.1 ≠ scriptName) && pr.2) := by
      intro es
      rw [List.countP_map]
      rfl
    rw [hm, hm, hmap]
  · intro n hn
    unfold finalReport
    rw [if_neg hn]
    exact ⟨rfl, rfl⟩

/-- Witness for C7: a directory with the script, one failing file, one
succeeding file and a subdirectory counts exactly the two regular non-script
files; and swapping a file's environment (outcome) leaves the count at 2. -/
theorem attempted_count_invariant_witness :
    (mainRun "convert.py" "/work"
      [⟨"convert.py", true, envAllOk⟩, ⟨"a.py", true, envBackendGone⟩,
       ⟨"sub", false, envAllOk⟩, ⟨"b.txt", true, envNoLexer⟩]).2 = 2 ∧
    (mainRun "convert.py" "/work"
      [⟨"convert.py", true, envAllOk⟩, ⟨"a.py", true, envBackendGone⟩,
       ⟨"sub", false, envAllOk⟩, ⟨"b.txt", true, envNoLexer⟩]).2 =
      (mainRun "convert.py" "/work"
        [⟨"convert.py", true, envAllOk⟩, ⟨"a.py", true, envAllOk⟩,
         ⟨"sub", false, envAllOk⟩, ⟨"b.txt", true, envAllOk⟩]).2 := by
  have h := attempted_count_invariant "convert.py" "/work"
    [⟨"convert.py", true, envAllOk⟩, ⟨"a.py", true, envBackendGone⟩,
     ⟨"sub", false, envAllOk⟩, ⟨"b.txt", true, envNoLexer⟩]
  refine ⟨h.1.trans (by rfl), h.2.1
    [⟨"convert.py", true, envAllOk⟩, ⟨"a.py", true, envAllOk⟩,
     ⟨"sub", false, envAllOk⟩, ⟨"b.txt", true, envAllOk⟩] (by rfl)⟩

/-- Claim C9: whenever the backend stage is reached for source path
`join dir name`, the `Popen` argument vector is exactly
`wkhtmltopdf --enable-local-file-access - <out>` with `<out>` the output
directory joined with the source basename minus its final extension plus
`.pdf`; `main` passes the scanned directory as both the source prefix and
the output directory; and the result is independent of whether a file
already exists at the output path — the script never checks, so an existing
file is overwritten without confirmation. -/
theorem backend_invoked_with_computed_output_path (env : FileEnv)
    (scriptName dir name content lexerName html : String)
    (hread : env.readResult = .ok content)
    (hne : content.data.all isPyWhitespace = false)
    (hlex : env.lexerByFilename = some lexerName)
    (hhtml : env.highlightResult = .ok html) :
    (convert_code_to_pdf env (joinPath dir name) dir).2.backendCommand =
      ["wkhtmltopdf", "--enable-local-file-access", "-",
       joinPath dir ((splitext (basename (joinPath dir name))).1 ++ ".pdf")] ∧
    (∀ b : Bool,
      convert_code_to_pdf { env with outputPreexisting := b }
          (joinPath dir name) dir =
        convert_code_to_pdf env (joinPath dir name) dir) ∧
    (∀ e : Entry, e.name ≠ scriptName → e.isFile = true →
      scanStep scriptName dir e =
        ScanEvent.converted e.name
          (convert_code_to_pdf e.env (joinPath dir e.name) dir)) := by
  refine ⟨?_, ?_, ?_⟩
  · rw [convert_trace_of_resolved env (joinPath dir name) dir content lexerName
      html hread hne hlex hhtml]
    rfl
  · intro b
    cases env
    rfl
  · intro e h hf
    unfold scanStep
    rw [if_neg h, if_pos hf]

/-- Witness for C9 at a concrete file `a.py` in `/work`: the backend is
told to write `/work/a.pdf`, and a pre-existing file there changes
nothing. -/
theorem backend_invoked_with_computed_output_path_witness :
    (convert_code_to_pdf envAllOk (joinPath "/work" "a.py") "/work").2.backendCommand
      = ["wkhtmltopdf", "--enable-local-file-access", "-", "/work/a.pdf"] ∧
    convert_code_to_pdf { envAllOk with outputPreexisting := true }
        (joinPath "/work" "a.py") "/work" =
      convert_code_to_pdf envAllOk (joinPath "/work" "a.py") "/work" := by
  have h := backend_invoked_with_computed_output_path envAllOk "convert.py"
    "/work" "a.py" "print(1)\n" "Python" "<html></html>"
    rfl (by decide) rfl rfl
  exact ⟨h.1.trans (by rfl), h.2.1 true⟩

/-- Claim C10, counterexample: the entry named `.pdf` — a regular-file name
ending in `.pdf` — has output path `/work/.pdf.pdf`, not the input path
`/work/.pdf`: `os.path.splitext` treats the whole name as a leading-dot stem
and strips no extension, so the claimed input/output identity fails for it. -/
theorem pdf_dotfile_output_path_differs :
    List.isSuffixOf (String.data ".pdf") (String.data (joinPath "/work" ".pdf"))
      = true ∧
    convertOutputPath (joinPath "/work" ".pdf") "/work" = "/work/.pdf.pdf" ∧
    convertOutputPath (joinPath "/work" ".pdf") "/work" ≠
      joinPath "/work" ".pdf" := by
  exact ⟨by decide, by decide, by decide⟩

/-- Claim C10 (amended): for every input file named `stem ++ ".pdf"` whose
stem contains a slash-free non-dot character — which covers every PDF a
previous run can produce — the computed output path equals the input path,
so a conversion reaching the backend directs the renderer to overwrite its
own input; and no scan stage excludes such files: any regular file not
named like the script is dispatched regardless of extension.  (Only the
degenerate all-dots names such as a file literally called `.pdf` escape the
identity, because `splitext` strips no extension from them.) -/
theorem prior_pdf_becomes_own_output_path (dir stem scriptName : String)
    (hslash : ∀ c ∈ stem.data, c ≠ '/')
    (hdot : ∃ c ∈ stem.data, c ≠ '.') :
    convertOutputPath (joinPath dir (stem ++ ".pdf")) dir =
      joinPath dir (stem ++ ".pdf") ∧
    (∀ env : FileEnv, stem ++ ".pdf" ≠ scriptName →
      scanStep scriptName dir ⟨stem ++ ".pdf", true, env⟩ =
        ScanEvent.converted (stem ++ ".pdf")
          (convert_code_to_pdf env (joinPath dir (stem ++ ".pdf")) dir)) := by
  refine ⟨convertOutputPath_pdf_fixpoint dir stem hslash hdot, ?_⟩
  intro env h
  unfold scanStep
  rw [if_neg h]
  simp

/-- Witness for C10 (amended): a prior output `a.pdf` in `/work` maps back
to itself. -/
theorem prior_pdf_becomes_own_output_path_witness :
    convertOutputPath (joinPath "/work" ("a" ++ ".pdf")) "/work" =
      joinPath "/work" ("a" ++ ".pdf") ∧
    scanStep "convert.py" "/work" ⟨"a" ++ ".pdf", true, envBinary⟩ =
      ScanEvent.converted ("a" ++ ".pdf")
        (convert_code_to_pdf envBinary (joinPath "/work" ("a" ++ ".pdf"))
          "/work") := by
  have h := prior_pdf_becomes_own_output_path "/work" "a" "convert.py"
    (by decide) (by decide)
  exact ⟨h.1, h.2 envBinary (by decide)⟩

end Code2PDF
